import Mathlib

/-!
Verification of the association / registry logic of the repository
`PyThon-OOP_implementation` (files `system.py`, `HealthCare.py`, `main.py`).

Shallow embedding conventions:
* Python objects are identified by a `Nat` identity token; `x in list`
  membership on lists of objects (which Python resolves by object identity,
  since no class overrides `__eq__`) becomes `Nat` membership on lists of
  identity tokens.
* Python `dict`s (`Student._grades`, the `School` registries) become
  insertion-ordered association lists with the usual dict operations
  (lookup, guarded insert-or-update, delete).
* A method that can `raise` returns `Object × Option String`: the second
  component is `some msg` when the call raised, and the first component is
  the object state at that moment (a raise aborts before any assignment,
  so it is the unchanged input object).
* `datetime.now()` bookkeeping fields that no verified operation reads
  (`created_at`, `enrollment_date`, `hire_date`) are omitted. In
  `HealthCare.py`, line 4 imports the `datetime` module (not the
  `datetime.datetime` class that `system.py` imports), so every
  `datetime.now()` call in that file raises `AttributeError`; methods whose
  body reaches such a call are embedded as raising with no mutation.
  Likewise the getter-only self-recursive `_is_admitted` property
  (`HealthCare.py` lines 124-126) makes every read of `self._is_admitted`
  raise `RecursionError`; methods guarded by it are embedded as raising
  with no mutation.
* Grades and salaries (Python floats compared against integer bounds) are
  embedded as rationals.
-/

/-- Python-dict membership test on an association list: `k in d`. -/
def dictHasKey {α : Type} (d : List (String × α)) (k : String) : Bool :=
  d.any (fun p => p.1 == k)

/-- Python-dict lookup `d.get(k)` on an association list. -/
def dictGet {α : Type} (d : List (String × α)) (k : String) : Option α :=
  (d.find? (fun p => p.1 == k)).map (fun p => p.2)

/-- Python-dict assignment `d[k] = v`: update in place when the key exists,
append otherwise. -/
def dictInsert {α : Type} (d : List (String × α)) (k : String) (v : α) :
    List (String × α) :=
  if dictHasKey d k then d.map (fun p => if p.1 == k then (k, v) else p)
  else d ++ [(k, v)]

/-- Python-dict deletion `del d[k]`. -/
def dictErase {α : Type} (d : List (String × α)) (k : String) :
    List (String × α) :=
  d.filter (fun p => !(p.1 == k))

/-- Embeds `Course.__init__` state from `src/system.py` (lines 197-208).
`teacher` holds the identity of the assigned `Teacher`, `enrolled_students`
the identities of the enrolled `Student` objects. -/
structure Course where
  course_id : String
  name : String
  description : String
  credits : Nat
  max_students : Nat
  teacher : Option Nat
  enrolled_students : List Nat
deriving DecidableEq, Repr

/-- `Course(course_id, name, description, credits, max_students)`: a fresh
course starts with no teacher and no enrolled students. -/
def Course.mkCourse (course_id name description : String)
    (credits max_students : Nat) : Course :=
  { course_id := course_id, name := name, description := description,
    credits := credits, max_students := max_students,
    teacher := none, enrolled_students := [] }

/-- Embeds `Course.add_student` (`src/system.py` lines 236-245): refuse when
the course is full; append the student when not already present; otherwise
refuse. Returns the Python `bool` and the updated course. -/
def Course.add_student (c : Course) (student : Nat) : Bool × Course :=
  if c.enrolled_students.length ≥ c.max_students then (false, c)
  else if student ∉ c.enrolled_students then
    (true, { c with enrolled_students := c.enrolled_students ++ [student] })
  else (false, c)

/-- Embeds `Course.remove_student` (`src/system.py` lines 247-250):
`list.remove` drops the first occurrence, guarded by membership. -/
def Course.remove_student (c : Course) (student : Nat) : Course :=
  if student ∈ c.enrolled_students then
    { c with enrolled_students := c.enrolled_students.erase student }
  else c

/-- Embeds `Course.is_full` (`src/system.py` lines 260-262). -/
def Course.is_full (c : Course) : Bool :=
  c.enrolled_students.length ≥ c.max_students

/-- Embeds `Student` state from `src/system.py` (lines 67-76):
`enrolled_courses` holds identities of `Course` objects, `grades` is the
`course_id ↦ grade` dict. -/
structure Student where
  person_id : String
  name : String
  email : String
  phone : String
  grade_level : Nat
  enrolled_courses : List Nat
  grades : List (String × ℚ)
deriving DecidableEq, Repr

/-- Embeds `Student.enroll_course` (`src/system.py` lines 88-98): fail if the
course is already in the student's list; otherwise delegate to
`Course.add_student` and append the course on success. `stId`/`cId` are the
identities of the two objects. -/
def Student.enroll_course (st : Student) (stId : Nat) (c : Course) (cId : Nat) :
    Bool × Student × Course :=
  if cId ∈ st.enrolled_courses then (false, st, c)
  else
    let r := c.add_student stId
    if r.1 then
      (true, { st with enrolled_courses := st.enrolled_courses ++ [cId] }, r.2)
    else (false, st, r.2)

/-- Embeds `Student.drop_course` (`src/system.py` lines 100-111): fail if the
course is not in the student's list; otherwise remove the student from the
course, remove the course from the student's list, and delete the grade keyed
by `course.course_id` when present. -/
def Student.drop_course (st : Student) (stId : Nat) (c : Course) (cId : Nat) :
    Bool × Student × Course :=
  if cId ∉ st.enrolled_courses then (false, st, c)
  else
    let c' := c.remove_student stId
    let grades' :=
      if dictHasKey st.grades c.course_id then dictErase st.grades c.course_id
      else st.grades
    (true, { st with enrolled_courses := st.enrolled_courses.erase cId,
                     grades := grades' }, c')

/-- Embeds `Student.add_grade` (`src/system.py` lines 113-117): raise when the
grade is outside `[0, 100]`, otherwise store `grades[course_id] = grade`. -/
def Student.add_grade (st : Student) (course_id : String) (grade : ℚ) :
    Student × Option String :=
  if ¬(0 ≤ grade ∧ grade ≤ 100) then
    (st, some "Grade must be between 0 and 100")
  else ({ st with grades := dictInsert st.grades course_id grade }, none)

/-- Embeds the `Person.name` setter of `src/system.py` (lines 29-33): raise on
an empty / all-whitespace string. Python's `not value.strip()` holds exactly
when every character of the string is whitespace (including the empty
string), embedded here over the string's character list. -/
def Student.set_name (st : Student) (value : String) : Student × Option String :=
  if value.data.all Char.isWhitespace then (st, some "Name cannot be empty")
  else ({ st with name := value }, none)

/-- Embeds the `Person.email` setter of `src/system.py` (lines 39-43): raise
when the string does not contain the character `@` (Python's
`"@" not in value`). -/
def Student.set_email (st : Student) (value : String) : Student × Option String :=
  if !(value.data.contains '@') then (st, some "Invalid email format")
  else ({ st with email := value }, none)

/-- Embeds `Teacher` state from `src/system.py` (lines 141-150):
`courses_taught` holds identities of `Course` objects. -/
structure Teacher where
  person_id : String
  name : String
  email : String
  phone : String
  subject : String
  courses_taught : List Nat
  salary : ℚ
deriving DecidableEq, Repr

/-- Embeds the `Teacher.salary` setter (`src/system.py` lines 164-168): raise
on a negative value. -/
def Teacher.set_salary (t : Teacher) (value : ℚ) : Teacher × Option String :=
  if value < 0 then (t, some "Salary cannot be negative")
  else ({ t with salary := value }, none)

/-- Embeds `Teacher.assign_course` (`src/system.py` lines 170-174): when the
course is not yet taught, append it and set `course.teacher = self` (the
teacher's identity `tId`). -/
def Teacher.assign_course (t : Teacher) (tId : Nat) (c : Course) (cId : Nat) :
    Teacher × Course :=
  if cId ∉ t.courses_taught then
    ({ t with courses_taught := t.courses_taught ++ [cId] },
     { c with teacher := some tId })
  else (t, c)

/-- Embeds `Teacher.remove_course` (`src/system.py` lines 176-179): remove the
course from the teacher's list. The method touches no `Course` object — in
particular it never clears `course.teacher`. -/
def Teacher.remove_course (t : Teacher) (cId : Nat) : Teacher :=
  if cId ∈ t.courses_taught then
    { t with courses_taught := t.courses_taught.erase cId }
  else t

/-- Embeds `Department` state from `src/system.py` (lines 281-289). -/
structure Department where
  dept_id : String
  name : String
  head : Option Nat
  courses : List Nat
  teachers : List Nat
deriving DecidableEq, Repr

/-- Shared dict-registry insertion used by all four `School.add_*` methods:
reject when the key is already present, otherwise store under the key. -/
def registryAdd {α : Type} (d : List (String × α)) (k : String) (x : α) :
    Bool × List (String × α) :=
  if dictHasKey d k then (false, d) else (true, d ++ [(k, x)])

/-- Embeds `School` state from `src/system.py` (lines 334-343): four
identifier-keyed dict registries. -/
structure School where
  name : String
  address : String
  students : List (String × Student)
  teachers : List (String × Teacher)
  courses : List (String × Course)
  departments : List (String × Department)
deriving DecidableEq, Repr

/-- Embeds `School.add_student` (`src/system.py` lines 345-352). -/
def School.add_student (sc : School) (st : Student) : Bool × School :=
  let r := registryAdd sc.students st.person_id st
  (r.1, { sc with students := r.2 })

/-- Embeds `School.add_teacher` (`src/system.py` lines 354-361). -/
def School.add_teacher (sc : School) (t : Teacher) : Bool × School :=
  let r := registryAdd sc.teachers t.person_id t
  (r.1, { sc with teachers := r.2 })

/-- Embeds `School.add_course` (`src/system.py` lines 363-370). -/
def School.add_course (sc : School) (c : Course) : Bool × School :=
  let r := registryAdd sc.courses c.course_id c
  (r.1, { sc with courses := r.2 })

/-- Embeds `School.add_department` (`src/system.py` lines 372-379). -/
def School.add_department (sc : School) (d : Department) : Bool × School :=
  let r := registryAdd sc.departments d.dept_id d
  (r.1, { sc with departments := r.2 })

/-- Embeds `School.get_student` (`src/system.py` lines 381-383). -/
def School.get_student (sc : School) (student_id : String) : Option Student :=
  dictGet sc.students student_id

/-- Embeds `School.get_course` (`src/system.py` lines 389-391). -/
def School.get_course (sc : School) (course_id : String) : Option Course :=
  dictGet sc.courses course_id

/-- The public operations that can touch a course's enrolment list:
`Course.add_student` and `Course.remove_student` (also reached through
`Student.enroll_course` / `Student.drop_course`). -/
inductive CourseOp where
  | addStudent (s : Nat)
  | removeStudent (s : Nat)
deriving DecidableEq, Repr

/-- Run one enrolment-list operation on a course. -/
def Course.applyOp (c : Course) (op : CourseOp) : Course :=
  match op with
  | .addStudent s => (c.add_student s).2
  | .removeStudent s => c.remove_student s

/-- Patient vital-sign record (`src/HealthCare.py` lines 181-189). -/
structure VitalSigns where
  blood_pressure : String
  temperature : ℚ
  heart_rate : Int
  pulse : Int
deriving DecidableEq, Repr

/-- Embeds `Patient` state from `src/HealthCare.py` (lines 104-117): `room`
and `assigned_doctor` hold object identities, `appointments` the identities
of `Appointment` objects; `admission_date` mirrors the `_admission_date`
attribute (never successfully written, since `admit_to_hospital` raises at
its guard). -/
structure HCPatient where
  person_id : String
  name : String
  email : String
  phone : String
  blood_type : String
  medical_history : List String
  allergies : List String
  room : Option Nat
  admission_date : Option String
  is_admitted : Bool
  assigned_doctor : Option Nat
  appointments : List Nat
  vital_signs : List (String × VitalSigns)
deriving DecidableEq, Repr

/-- Embeds `Patient.add_medical_history` (`src/HealthCare.py` lines 138-142).
The method's first action evaluates `datetime.now()` (line 140), but line 4
imports the `datetime` module rather than the `datetime` class, so the call
raises `AttributeError: module 'datetime' has no attribute 'now'` before the
`append` runs: the method always raises and never extends the list. The
`history` argument is received but never used. -/
def HCPatient.add_medical_history (p : HCPatient) (_history : String) :
    HCPatient × Option String :=
  (p, some "AttributeError: module 'datetime' has no attribute 'now'")

/-- Embeds `Patient.assign_doctor` (`src/HealthCare.py` lines 144-148): the
method unconditionally overwrites `self._assigned_doctor` with the new
doctor's identity; it reads no previous link and touches no `Doctor` object. -/
def HCPatient.assign_doctor (p : HCPatient) (dId : Nat) : HCPatient :=
  { p with assigned_doctor := some dId }

/-- Modelled from the spec: the `Room` class (`room.occupy`, `room.vacate`,
`room.room_number`, `room.room_type`) is called by
`Patient.admit_to_hospital` / `Patient.discharge` in `src/HealthCare.py` but
its definition is not under `src/`. Following the spec's
`assign_exclusive` / `release_exclusive` ("sets the link on both sides" /
"symmetric teardown"), `occupy` records the patient as the room's occupant
and `vacate` clears it. In the embedded methods these calls are never
reached, because both callers raise at their `_is_admitted` guard. -/
structure Room where
  room_number : Nat
  room_type : String
  occupant : Option Nat
deriving DecidableEq, Repr

/-- Modelled from the spec: `Room.occupy` records the occupying patient. -/
def Room.occupy (r : Room) (pId : Nat) : Room :=
  { r with occupant := some pId }

/-- Modelled from the spec: `Room.vacate` clears the occupant. -/
def Room.vacate (r : Room) : Room :=
  { r with occupant := none }

/-- Embeds `Patient.admit_to_hospital` (`src/HealthCare.py` lines 157-167).
The guard `if not self._is_admitted:` reads `_is_admitted`, which lines
124-126 declare as a getter-only property whose getter returns
`self._is_admitted` itself; the read recurses infinitely and raises
`RecursionError`, so the method never reaches the room-link assignments and
leaves the patient and the passed room unchanged. (No instance can even be
constructed: `Person.__init__` raises at `datetime.now()`, line 48, and
`Patient.__init__` would raise again writing the setterless `_is_admitted`.)
The method's `room` argument is threaded through unchanged. -/
def HCPatient.admit_to_hospital (p : HCPatient) (r : Room) :
    (HCPatient × Room) × Option String :=
  ((p, r), some "RecursionError: maximum recursion depth exceeded")

/-- Embeds `Patient.discharge` (`src/HealthCare.py` lines 168-178): its guard
`if self._is_admitted and self._room:` reads the same getter-only
self-recursive `_is_admitted` property and raises `RecursionError`, so the
method never vacates a room or clears any field. -/
def HCPatient.discharge (p : HCPatient) : HCPatient × Option String :=
  (p, some "RecursionError: maximum recursion depth exceeded")

/-- Embeds `Doctor` state from `src/HealthCare.py` (lines 214-226):
`patients` holds identities of `Patient` objects. -/
structure HCDoctor where
  person_id : String
  name : String
  email : String
  phone : String
  specialization : String
  license_number : String
  patients : List Nat
  salary : ℚ
deriving DecidableEq, Repr

/-- Embeds `Doctor.add_patient` (`src/HealthCare.py` lines 246-249). -/
def HCDoctor.add_patient (d : HCDoctor) (pId : Nat) : HCDoctor :=
  if pId ∉ d.patients then { d with patients := d.patients ++ [pId] } else d

/-- Embeds `Doctor.remove_patient` (`src/HealthCare.py` lines 251-254). -/
def HCDoctor.remove_patient (d : HCDoctor) (pId : Nat) : HCDoctor :=
  if pId ∈ d.patients then { d with patients := d.patients.erase pId } else d

/-- Embeds the `name`/`email` property pair of the HealthCare `Person`
(`src/HealthCare.py` lines 54-72). The `@email.setter` at line 68 decorates a
function named `name`, so it rebinds the class attribute `name` to a property
whose setter is the email validator; assigning to `.name` therefore checks
`"@" in value.strip()` (equivalent to `@`-membership in the string itself,
since stripping whitespace cannot remove an `@`) and on success stores into
`_email`. A rejected value raises (a `NameError`, since the code's
`valueError` is undefined) before any assignment. -/
def HCPatient.set_name (p : HCPatient) (value : String) :
    HCPatient × Option String :=
  if !(value.data.contains '@') then
    (p, some "NameError: name 'valueError' is not defined")
  else ({ p with email := value }, none)

/-- Embeds assignment to `.email` on the HealthCare `Person`
(`src/HealthCare.py` lines 64-72): after the line-68 setter rebinds `name`
instead of `email`, the `email` property keeps no setter, so every assignment
to `.email` raises `AttributeError` and changes nothing. -/
def HCPatient.set_email (p : HCPatient) (_value : String) :
    HCPatient × Option String :=
  (p, some "AttributeError: property 'email' of 'Person' object has no setter")

/-- Embeds the `Doctor.salary` setter (`src/HealthCare.py` lines 240-244):
raise on a negative value. -/
def HCDoctor.set_salary (d : HCDoctor) (value : ℚ) : HCDoctor × Option String :=
  if value < 0 then (d, some "Salary cannot be negative")
  else ({ d with salary := value }, none)

/-! ### Helper lemmas -/

lemma Course.applyOp_max (c : Course) (op : CourseOp) :
    (c.applyOp op).max_students = c.max_students := by
  cases op with
  | addStudent s =>
      simp only [Course.applyOp, Course.add_student]
      split_ifs <;> rfl
  | removeStudent s =>
      simp only [Course.applyOp, Course.remove_student]
      split_ifs <;> rfl

lemma Course.applyOp_length (c : Course) (op : CourseOp)
    (h : c.enrolled_students.length ≤ c.max_students) :
    (c.applyOp op).enrolled_students.length ≤ c.max_students := by
  cases op with
  | addStudent s =>
      simp only [Course.applyOp, Course.add_student]
      split_ifs with h1 h2
      · exact h
      · exact h
      · show (c.enrolled_students ++ [s]).length ≤ c.max_students
        simp only [List.length_append, List.length_singleton]
        omega
  | removeStudent s =>
      simp only [Course.applyOp, Course.remove_student]
      split_ifs with h1
      · exact le_trans (List.Sublist.length_le
          (List.erase_sublist s c.enrolled_students)) h
      · exact h

lemma Course.foldl_applyOp_inv (ops : List CourseOp) (c : Course)
    (h : c.enrolled_students.length ≤ c.max_students) :
    (ops.foldl Course.applyOp c).enrolled_students.length ≤
      (ops.foldl Course.applyOp c).max_students ∧
    (ops.foldl Course.applyOp c).max_students = c.max_students := by
  induction ops generalizing c with
  | nil => exact ⟨h, rfl⟩
  | cons op ops ih =>
      simp only [List.foldl_cons]
      have h1 := Course.applyOp_length c op h
      have h2 := Course.applyOp_max c op
      have h3 := ih (c.applyOp op) (h2 ▸ h1)
      exact ⟨h3.1, h3.2.trans h2⟩

/-! ### C1: capacity invariant -/

/-- C1: starting from construction, no sequence of enrolment-list operations
(`add_student` / `remove_student`, the ones `enroll_course` / `drop_course`
invoke) ever pushes the number of enrolled students beyond `max_students`;
and `Course.add_student` refuses — returns `false` and appends nothing —
whenever `len(enrolled_students) >= max_students`. -/
theorem course_capacity_never_exceeded
    (cid nm ds : String) (cr m : Nat) (ops : List CourseOp) :
    (ops.foldl Course.applyOp
        (Course.mkCourse cid nm ds cr m)).enrolled_students.length ≤ m
    ∧ ∀ (c : Course) (s : Nat),
        c.max_students ≤ c.enrolled_students.length →
        c.add_student s = (false, c) := by
  constructor
  · have h0 : (Course.mkCourse cid nm ds cr m).enrolled_students.length ≤
        (Course.mkCourse cid nm ds cr m).max_students := by
      simp [Course.mkCourse]
    have h1 := Course.foldl_applyOp_inv ops _ h0
    exact le_trans h1.1 (le_of_eq h1.2)
  · intro c s h
    simp [Course.add_student, ge_iff_le, h]

/-- Concrete run of `course_capacity_never_exceeded`: a capacity-2 course
stays at ≤ 2 students under three additions, and a full capacity-2 course
refuses a fifth student unchanged. -/
theorem course_capacity_never_exceeded_witness :
    (([CourseOp.addStudent 1, CourseOp.addStudent 2,
        CourseOp.addStudent 3].foldl Course.applyOp
        (Course.mkCourse "C001" "Algebra I" "Introduction to Algebra" 3
          2)).enrolled_students.length ≤ 2)
    ∧ Course.add_student
        { course_id := "C001", name := "Algebra I",
          description := "Introduction to Algebra", credits := 3,
          max_students := 2, teacher := none, enrolled_students := [1, 2] } 5 =
      (false,
        { course_id := "C001", name := "Algebra I",
          description := "Introduction to Algebra", credits := 3,
          max_students := 2, teacher := none, enrolled_students := [1, 2] }) :=
  ⟨(course_capacity_never_exceeded "C001" "Algebra I"
      "Introduction to Algebra" 3 2 _).1,
   (course_capacity_never_exceeded "C001" "Algebra I"
      "Introduction to Algebra" 3 2 []).2 _ 5 (by decide)⟩

lemma dictErase_of_not_hasKey {α : Type} (d : List (String × α)) (k : String)
    (h : dictHasKey d k = false) : dictErase d k = d := by
  simp only [dictHasKey, List.any_eq_false] at h
  simp only [dictErase]
  refine List.filter_eq_self.mpr (fun p hp => ?_)
  have hk := h p hp
  simp only [Bool.not_eq_true] at hk ⊢
  simp [hk]

lemma dictErase_branch_eq (g : List (String × ℚ)) (k : String) :
    (if dictHasKey g k then dictErase g k else g) = dictErase g k := by
  split_ifs with h
  · rfl
  · exact (dictErase_of_not_hasKey g k (by simpa using h)).symm

lemma Course.remove_student_eq (c : Course) (s : Nat) :
    c.remove_student s =
      { c with enrolled_students := c.enrolled_students.erase s } := by
  unfold Course.remove_student
  split_ifs with h
  · rfl
  · simp [List.erase_of_not_mem h]

/-! ### C2: enroll_course (link) -/

/-- C2: for a pair kept symmetric (as every reachable state is),
`Student.enroll_course` returns `false` and mutates neither side when the
link already exists or the course is at capacity; otherwise it appends the
course to the student's list, the student to the course's list, and returns
`true`. -/
theorem enroll_course_link_spec (st : Student) (stId : Nat) (c : Course)
    (cId : Nat)
    (hsym : cId ∈ st.enrolled_courses ↔ stId ∈ c.enrolled_students) :
    (cId ∈ st.enrolled_courses ∨ c.max_students ≤ c.enrolled_students.length →
      st.enroll_course stId c cId = (false, st, c))
    ∧ (cId ∉ st.enrolled_courses →
        c.enrolled_students.length < c.max_students →
        st.enroll_course stId c cId =
          (true, { st with enrolled_courses := st.enrolled_courses ++ [cId] },
           { c with enrolled_students := c.enrolled_students ++ [stId] })) := by
  constructor
  · rintro (hin | hfull)
    · simp [Student.enroll_course, hin]
    · by_cases hin : cId ∈ st.enrolled_courses
      · simp [Student.enroll_course, hin]
      · simp [Student.enroll_course, hin, Course.add_student, ge_iff_le, hfull]
  · intro hnin hlt
    have hnin' : stId ∉ c.enrolled_students := fun hmem => hnin (hsym.mpr hmem)
    simp [Student.enroll_course, hnin, Course.add_student, ge_iff_le,
      Nat.not_le.mpr hlt, hnin']

/-- Concrete run of `enroll_course_link_spec`, the spec's scenario: on a
capacity-2 course, after two distinct students enrolled, the third distinct
student's `enroll_course` returns `false` and the course retains exactly the
2 occupants. -/
theorem enroll_course_link_spec_witness :
    ((Student.enroll_course
        ⟨"S002", "Bob Brown", "bob.b@student.com", "555-0202", 11, [], []⟩ 2
        ((Student.enroll_course
            ⟨"S001", "Alice Williams", "alice.w@student.com", "555-0201", 10,
              [], []⟩ 1
            (Course.mkCourse "C002" "Physics 101" "Basic Physics Principles"
              4 2) 10).2.2) 10).2.2 =
      { course_id := "C002", name := "Physics 101",
        description := "Basic Physics Principles", credits := 4,
        max_students := 2, teacher := none, enrolled_students := [1, 2] })
    ∧ Student.enroll_course
        ⟨"S003", "Carol Davis", "carol.d@student.com", "555-0203", 10, [],
          []⟩ 3
        { course_id := "C002", name := "Physics 101",
          description := "Basic Physics Principles", credits := 4,
          max_students := 2, teacher := none, enrolled_students := [1, 2] }
        10 =
      (false,
        ⟨"S003", "Carol Davis", "carol.d@student.com", "555-0203", 10, [],
          []⟩,
        { course_id := "C002", name := "Physics 101",
          description := "Basic Physics Principles", credits := 4,
          max_students := 2, teacher := none, enrolled_students := [1, 2] })
    ∧ ([1, 2] : List Nat).length = 2 :=
  ⟨by decide,
   (enroll_course_link_spec _ 3 _ 10 (by decide)).1 (Or.inr (by decide)),
   by decide⟩

/-! ### C3: drop_course (unlink) -/

/-- C3: `Student.drop_course` returns `false` and mutates nothing when the
course is not in the student's enrolled list; otherwise it removes the course
from the student's list, removes the student from the course's list, deletes
the grade keyed by `course.course_id` (a no-op when no such grade exists),
and returns `true`. -/
theorem drop_course_unlink_spec (st : Student) (stId : Nat) (c : Course)
    (cId : Nat) :
    (cId ∉ st.enrolled_courses → st.drop_course stId c cId = (false, st, c))
    ∧ (cId ∈ st.enrolled_courses →
        st.drop_course stId c cId =
          (true,
           { st with enrolled_courses := st.enrolled_courses.erase cId,
                     grades := dictErase st.grades c.course_id },
           { c with enrolled_students := c.enrolled_students.erase stId })) := by
  constructor
  · intro h
    simp [Student.drop_course, h]
  · intro h
    simp [Student.drop_course, h, Course.remove_student_eq, dictErase_branch_eq]

/-- Concrete run of `drop_course_unlink_spec`: dropping a non-enrolled course
returns `false` and mutates nothing; dropping an enrolled course removes both
sides and the grade keyed by the course id. -/
theorem drop_course_unlink_spec_witness :
    (Student.drop_course
        ⟨"S001", "Alice Williams", "alice.w@student.com", "555-0201", 10, [],
          []⟩ 7
        { course_id := "C001", name := "Algebra I",
          description := "Introduction to Algebra", credits := 3,
          max_students := 25, teacher := none, enrolled_students := [] } 0 =
      (false,
        ⟨"S001", "Alice Williams", "alice.w@student.com", "555-0201", 10, [],
          []⟩,
        { course_id := "C001", name := "Algebra I",
          description := "Introduction to Algebra", credits := 3,
          max_students := 25, teacher := none, enrolled_students := [] }))
    ∧ (Student.drop_course
        ⟨"S001", "Alice Williams", "alice.w@student.com", "555-0201", 10,
          [0], [("C001", (92 : ℚ))]⟩ 7
        { course_id := "C001", name := "Algebra I",
          description := "Introduction to Algebra", credits := 3,
          max_students := 25, teacher := none, enrolled_students := [7] } 0 =
      (true,
        ⟨"S001", "Alice Williams", "alice.w@student.com", "555-0201", 10,
          ([0] : List Nat).erase 0,
          dictErase [("C001", (92 : ℚ))] "C001"⟩,
        { course_id := "C001", name := "Algebra I",
          description := "Introduction to Algebra", credits := 3,
          max_students := 25, teacher := none,
          enrolled_students := ([7] : List Nat).erase 7 })) :=
  ⟨(drop_course_unlink_spec _ 7 _ 0).1 (by decide),
   (drop_course_unlink_spec _ 7 _ 0).2 (by decide)⟩

lemma Student.enroll_course_success (st : Student) (stId : Nat) (c : Course)
    (cId : Nat) (h1 : cId ∉ st.enrolled_courses)
    (h2 : stId ∉ c.enrolled_students)
    (h3 : c.enrolled_students.length < c.max_students) :
    st.enroll_course stId c cId =
      (true, { st with enrolled_courses := st.enrolled_courses ++ [cId] },
       { c with enrolled_students := c.enrolled_students ++ [stId] }) := by
  simp [Student.enroll_course, h1, Course.add_student, ge_iff_le,
    Nat.not_le.mpr h3, h2]

lemma Student.enroll_course_already (st : Student) (stId : Nat) (c : Course)
    (cId : Nat) (h : cId ∈ st.enrolled_courses) :
    st.enroll_course stId c cId = (false, st, c) := by
  simp [Student.enroll_course, h]

lemma Student.drop_course_success (st : Student) (stId : Nat) (c : Course)
    (cId : Nat) (h : cId ∈ st.enrolled_courses) :
    st.drop_course stId c cId =
      (true,
       { st with enrolled_courses := st.enrolled_courses.erase cId,
                 grades := dictErase st.grades c.course_id },
       { c with enrolled_students := c.enrolled_students.erase stId }) := by
  simp [Student.drop_course, h, Course.remove_student_eq, dictErase_branch_eq]

lemma erase_append_self {l : List Nat} {a : Nat} (h : a ∉ l) :
    (l ++ [a]).erase a = l := by
  rw [List.erase_append_right _ h]
  simp

/-! ### C4: link / unlink round-trip -/

/-- C4: for a pair that is not linked, with the course below capacity,
`enroll_course` followed by `drop_course` on the same (student, course) pair
restores both the student's enrolled-courses list and the course's
enrolled-students list to their pre-enroll contents. -/
theorem enroll_then_drop_roundtrip (st : Student) (stId : Nat) (c : Course)
    (cId : Nat) (h1 : cId ∉ st.enrolled_courses)
    (h2 : stId ∉ c.enrolled_students)
    (h3 : c.enrolled_students.length < c.max_students) :
    ((st.enroll_course stId c cId).2.1.drop_course stId
        (st.enroll_course stId c cId).2.2 cId).2.1.enrolled_courses =
      st.enrolled_courses
    ∧ ((st.enroll_course stId c cId).2.1.drop_course stId
        (st.enroll_course stId c cId).2.2 cId).2.2.enrolled_students =
      c.enrolled_students := by
  rw [Student.enroll_course_success st stId c cId h1 h2 h3]
  rw [Student.drop_course_success _ stId _ cId (by simp)]
  constructor
  · show (st.enrolled_courses ++ [cId]).erase cId = st.enrolled_courses
    exact erase_append_self h1
  · show (c.enrolled_students ++ [stId]).erase stId = c.enrolled_students
    exact erase_append_self h2

/-- Concrete run of `enroll_then_drop_roundtrip`: enrolling then dropping
course 6 for student 7 restores the student's list `[5]` and the course's
list `[9]`. -/
theorem enroll_then_drop_roundtrip_witness :
    ((Student.enroll_course
        ⟨"S002", "Bob Brown", "bob.b@student.com", "555-0202", 11, [5], []⟩ 7
        { course_id := "C003", name := "Calculus",
          description := "Advanced Mathematics", credits := 4,
          max_students := 15, teacher := none,
          enrolled_students := [9] } 6).2.1.drop_course 7
        (Student.enroll_course
          ⟨"S002", "Bob Brown", "bob.b@student.com", "555-0202", 11, [5], []⟩ 7
          { course_id := "C003", name := "Calculus",
            description := "Advanced Mathematics", credits := 4,
            max_students := 15, teacher := none,
            enrolled_students := [9] } 6).2.2 6).2.1.enrolled_courses = [5]
    ∧ ((Student.enroll_course
        ⟨"S002", "Bob Brown", "bob.b@student.com", "555-0202", 11, [5], []⟩ 7
        { course_id := "C003", name := "Calculus",
          description := "Advanced Mathematics", credits := 4,
          max_students := 15, teacher := none,
          enrolled_students := [9] } 6).2.1.drop_course 7
        (Student.enroll_course
          ⟨"S002", "Bob Brown", "bob.b@student.com", "555-0202", 11, [5], []⟩ 7
          { course_id := "C003", name := "Calculus",
            description := "Advanced Mathematics", credits := 4,
            max_students := 15, teacher := none,
            enrolled_students := [9] } 6).2.2 6).2.2.enrolled_students = [9] :=
  enroll_then_drop_roundtrip _ 7 _ 6 (by decide) (by decide) (by decide)

/-! ### C5: linking twice leaves one edge -/

/-- C5: enrolling the same (student, course) pair twice leaves exactly one
edge — the course appears exactly once in the student's list and the student
exactly once in the course's list — and the second call returns `false`
without mutating either side. -/
theorem enroll_twice_single_edge (st : Student) (stId : Nat) (c : Course)
    (cId : Nat) (h1 : cId ∉ st.enrolled_courses)
    (h2 : stId ∉ c.enrolled_students)
    (h3 : c.enrolled_students.length < c.max_students) :
    ((st.enroll_course stId c cId).2.1.enroll_course stId
        (st.enroll_course stId c cId).2.2 cId) =
      (false, (st.enroll_course stId c cId).2.1,
        (st.enroll_course stId c cId).2.2)
    ∧ ((st.enroll_course stId c cId).2.1.enroll_course stId
          (st.enroll_course stId c cId).2.2 cId).2.1.enrolled_courses.count
        cId = 1
    ∧ ((st.enroll_course stId c cId).2.1.enroll_course stId
          (st.enroll_course stId c cId).2.2 cId).2.2.enrolled_students.count
        stId = 1 := by
  rw [Student.enroll_course_success st stId c cId h1 h2 h3]
  rw [Student.enroll_course_already _ stId _ cId (by simp)]
  refine ⟨rfl, ?_, ?_⟩
  · show (st.enrolled_courses ++ [cId]).count cId = 1
    rw [List.count_append]
    simp [List.count_eq_zero.mpr h1]
  · show (c.enrolled_students ++ [stId]).count stId = 1
    rw [List.count_append]
    simp [List.count_eq_zero.mpr h2]

/-- Concrete run of `enroll_twice_single_edge`: the double enrolment of
student 7 in course 6 leaves one copy of each reference and the second call
reports `false`. -/
theorem enroll_twice_single_edge_witness :
    ((Student.enroll_course
        ⟨"S003", "Carol Davis", "carol.d@student.com", "555-0203", 10, [], []⟩
        7 (Course.mkCourse "C002" "Physics 101" "Basic Physics Principles" 4
          20) 6).2.1.enroll_course 7
        (Student.enroll_course
          ⟨"S003", "Carol Davis", "carol.d@student.com", "555-0203", 10, [],
            []⟩ 7
          (Course.mkCourse "C002" "Physics 101" "Basic Physics Principles" 4
            20) 6).2.2 6) =
      (false,
        (Student.enroll_course
          ⟨"S003", "Carol Davis", "carol.d@student.com", "555-0203", 10, [],
            []⟩ 7
          (Course.mkCourse "C002" "Physics 101" "Basic Physics Principles" 4
            20) 6).2.1,
        (Student.enroll_course
          ⟨"S003", "Carol Davis", "carol.d@student.com", "555-0203", 10, [],
            []⟩ 7
          (Course.mkCourse "C002" "Physics 101" "Basic Physics Principles" 4
            20) 6).2.2)
    ∧ ((Student.enroll_course
          ⟨"S003", "Carol Davis", "carol.d@student.com", "555-0203", 10, [],
            []⟩ 7
          (Course.mkCourse "C002" "Physics 101" "Basic Physics Principles" 4
            20) 6).2.1.enroll_course 7
          (Student.enroll_course
            ⟨"S003", "Carol Davis", "carol.d@student.com", "555-0203", 10, [],
              []⟩ 7
            (Course.mkCourse "C002" "Physics 101" "Basic Physics Principles" 4
              20) 6).2.2 6).2.1.enrolled_courses.count 6 = 1
    ∧ ((Student.enroll_course
          ⟨"S003", "Carol Davis", "carol.d@student.com", "555-0203", 10, [],
            []⟩ 7
          (Course.mkCourse "C002" "Physics 101" "Basic Physics Principles" 4
            20) 6).2.1.enroll_course 7
          (Student.enroll_course
            ⟨"S003", "Carol Davis", "carol.d@student.com", "555-0203", 10, [],
              []⟩ 7
            (Course.mkCourse "C002" "Physics 101" "Basic Physics Principles" 4
              20) 6).2.2 6).2.2.enrolled_students.count 7 = 1 :=
  enroll_twice_single_edge _ 7 _ 6 (by decide) (by decide) (by decide)

lemma Student.enroll_course_full (st : Student) (stId : Nat) (c : Course)
    (cId : Nat) (h1 : cId ∉ st.enrolled_courses)
    (hfull : c.max_students ≤ c.enrolled_students.length) :
    st.enroll_course stId c cId = (false, st, c) := by
  simp [Student.enroll_course, h1, Course.add_student, ge_iff_le, hfull]

lemma Student.drop_course_not_enrolled (st : Student) (stId : Nat)
    (c : Course) (cId : Nat) (h : cId ∉ st.enrolled_courses) :
    st.drop_course stId c cId = (false, st, c) := by
  simp [Student.drop_course, h]

/-! ### C6: symmetry of associations -/

/-- C6 is refuted by the code: `Teacher.remove_course` removes the course
from the teacher's list but never clears `course.teacher`. Concretely,
teacher 7 runs `assign_course` on course 0 and then `remove_course`; the
course still names teacher 7 while the teacher's `courses_taught` no longer
contains course 0 — a dangling one-sided reference after a sequence of the
public association operations. -/
theorem assoc_symmetry_counterexample :
    ((Teacher.assign_course
        ⟨"T001", "Dr. John Smith", "john.smith@school.com", "555-0101",
          "Mathematics", [], 60000⟩ 7
        (Course.mkCourse "C001" "Algebra I" "Introduction to Algebra" 3 25)
        0).2.teacher = some 7)
    ∧ (0 ∉ (Teacher.remove_course
        (Teacher.assign_course
          ⟨"T001", "Dr. John Smith", "john.smith@school.com", "555-0101",
            "Mathematics", [], 60000⟩ 7
          (Course.mkCourse "C001" "Algebra I" "Introduction to Algebra" 3 25)
          0).1 0).courses_taught) := by
  decide

/-- C6 (amended): the student-course operations `enroll_course` and
`drop_course` do preserve the symmetric mirror-reference invariant for the
pair they act on (given duplicate-free lists, as construction guarantees);
the symmetry does not extend to `Teacher.remove_course`, which never clears
`course.teacher`, nor to `Patient.assign_doctor`, which writes only the
patient's side — see `assoc_symmetry_counterexample`. -/
theorem enroll_drop_preserve_symmetry (st : Student) (stId : Nat) (c : Course)
    (cId : Nat)
    (hsym : cId ∈ st.enrolled_courses ↔ stId ∈ c.enrolled_students)
    (hnd1 : st.enrolled_courses.Nodup) (hnd2 : c.enrolled_students.Nodup) :
    (cId ∈ (st.enroll_course stId c cId).2.1.enrolled_courses ↔
      stId ∈ (st.enroll_course stId c cId).2.2.enrolled_students)
    ∧ (cId ∈ (st.drop_course stId c cId).2.1.enrolled_courses ↔
      stId ∈ (st.drop_course stId c cId).2.2.enrolled_students) := by
  constructor
  · by_cases hin : cId ∈ st.enrolled_courses
    · rw [Student.enroll_course_already st stId c cId hin]
      exact hsym
    · have hnin' : stId ∉ c.enrolled_students := fun hm => hin (hsym.mpr hm)
      by_cases hlt : c.enrolled_students.length < c.max_students
      · rw [Student.enroll_course_success st stId c cId hin hnin' hlt]
        simp
      · rw [Student.enroll_course_full st stId c cId hin
          (Nat.le_of_not_lt hlt)]
        exact hsym
  · by_cases hin : cId ∈ st.enrolled_courses
    · rw [Student.drop_course_success st stId c cId hin]
      show cId ∈ st.enrolled_courses.erase cId ↔
        stId ∈ c.enrolled_students.erase stId
      simp [List.Nodup.mem_erase_iff hnd1, List.Nodup.mem_erase_iff hnd2]
    · rw [Student.drop_course_not_enrolled st stId c cId hin]
      exact hsym

/-- Concrete run of `enroll_drop_preserve_symmetry` on a linked pair
(student 7 holding course 4, course holding student 7). -/
theorem enroll_drop_preserve_symmetry_witness :
    ((4 ∈ (Student.enroll_course
        ⟨"S002", "Bob Brown", "bob.b@student.com", "555-0202", 11, [4], []⟩ 7
        { course_id := "C003", name := "Calculus",
          description := "Advanced Mathematics", credits := 4,
          max_students := 15, teacher := none,
          enrolled_students := [7] } 4).2.1.enrolled_courses ↔
      7 ∈ (Student.enroll_course
        ⟨"S002", "Bob Brown", "bob.b@student.com", "555-0202", 11, [4], []⟩ 7
        { course_id := "C003", name := "Calculus",
          description := "Advanced Mathematics", credits := 4,
          max_students := 15, teacher := none,
          enrolled_students := [7] } 4).2.2.enrolled_students)
    ∧ (4 ∈ (Student.drop_course
        ⟨"S002", "Bob Brown", "bob.b@student.com", "555-0202", 11, [4], []⟩ 7
        { course_id := "C003", name := "Calculus",
          description := "Advanced Mathematics", credits := 4,
          max_students := 15, teacher := none,
          enrolled_students := [7] } 4).2.1.enrolled_courses ↔
      7 ∈ (Student.drop_course
        ⟨"S002", "Bob Brown", "bob.b@student.com", "555-0202", 11, [4], []⟩ 7
        { course_id := "C003", name := "Calculus",
          description := "Advanced Mathematics", credits := 4,
          max_students := 15, teacher := none,
          enrolled_students := [7] } 4).2.2.enrolled_students)) :=
  enroll_drop_preserve_symmetry _ 7 _ 4 (by decide) (by decide) (by decide)

lemma dictGet_append_fresh {α : Type} (d : List (String × α)) (k : String)
    (x : α) (h : dictHasKey d k = false) :
    dictGet (d ++ [(k, x)]) k = some x := by
  induction d with
  | nil => simp [dictGet]
  | cons p d ih =>
      simp only [dictHasKey, List.any_cons, Bool.or_eq_false_iff] at h
      have hrec : dictGet (d ++ [(k, x)]) k = some x := by
        apply ih
        simpa [dictHasKey] using h.2
      simp only [dictGet] at hrec ⊢
      rw [List.cons_append, List.find?_cons_of_neg]
      · exact hrec
      · simp [h.1]

/-! ### C7: registries reject duplicate identifiers -/

/-- C7: for each of the four `School` registries, inserting an entity whose
identifier is already a key returns `false` and leaves the registry
unchanged (the first-inserted entity is never overwritten), while inserting
under a fresh identifier returns `true` and stores exactly that entity under
that identifier. -/
theorem school_registry_rejects_duplicates (sc : School) (st : Student)
    (t : Teacher) (c : Course) (d : Department) :
    ((dictHasKey sc.students st.person_id = true →
        sc.add_student st = (false, sc))
      ∧ (dictHasKey sc.students st.person_id = false →
        sc.add_student st =
          (true, { sc with students := sc.students ++ [(st.person_id, st)] })
        ∧ dictGet (sc.add_student st).2.students st.person_id = some st))
    ∧ ((dictHasKey sc.teachers t.person_id = true →
        sc.add_teacher t = (false, sc))
      ∧ (dictHasKey sc.teachers t.person_id = false →
        sc.add_teacher t =
          (true, { sc with teachers := sc.teachers ++ [(t.person_id, t)] })
        ∧ dictGet (sc.add_teacher t).2.teachers t.person_id = some t))
    ∧ ((dictHasKey sc.courses c.course_id = true →
        sc.add_course c = (false, sc))
      ∧ (dictHasKey sc.courses c.course_id = false →
        sc.add_course c =
          (true, { sc with courses := sc.courses ++ [(c.course_id, c)] })
        ∧ dictGet (sc.add_course c).2.courses c.course_id = some c))
    ∧ ((dictHasKey sc.departments d.dept_id = true →
        sc.add_department d = (false, sc))
      ∧ (dictHasKey sc.departments d.dept_id = false →
        sc.add_department d =
          (true,
            { sc with departments := sc.departments ++ [(d.dept_id, d)] })
        ∧ dictGet (sc.add_department d).2.departments d.dept_id = some d)) := by
  refine ⟨⟨fun h => ?_, fun h => ⟨?_, ?_⟩⟩, ⟨fun h => ?_, fun h => ⟨?_, ?_⟩⟩,
    ⟨fun h => ?_, fun h => ⟨?_, ?_⟩⟩, ⟨fun h => ?_, fun h => ⟨?_, ?_⟩⟩⟩
  · simp [School.add_student, registryAdd, h]
  · simp [School.add_student, registryAdd, h]
  · simp only [School.add_student, registryAdd, h, Bool.false_eq_true,
      if_false]
    exact dictGet_append_fresh sc.students st.person_id st h
  · simp [School.add_teacher, registryAdd, h]
  · simp [School.add_teacher, registryAdd, h]
  · simp only [School.add_teacher, registryAdd, h, Bool.false_eq_true,
      if_false]
    exact dictGet_append_fresh sc.teachers t.person_id t h
  · simp [School.add_course, registryAdd, h]
  · simp [School.add_course, registryAdd, h]
  · simp only [School.add_course, registryAdd, h, Bool.false_eq_true,
      if_false]
    exact dictGet_append_fresh sc.courses c.course_id c h
  · simp [School.add_department, registryAdd, h]
  · simp [School.add_department, registryAdd, h]
  · simp only [School.add_department, registryAdd, h, Bool.false_eq_true,
      if_false]
    exact dictGet_append_fresh sc.departments d.dept_id d h

/-- Sample registry contents for the registry witness. -/
def sampleStudent : Student :=
  ⟨"S001", "Alice Williams", "alice.w@student.com", "555-0201", 10, [], []⟩

/-- A second student with a fresh identifier. -/
def sampleStudent2 : Student :=
  ⟨"S002", "Bob Brown", "bob.b@student.com", "555-0202", 11, [], []⟩

/-- A different student object reusing the identifier `S001`. -/
def sampleStudentDup : Student :=
  ⟨"S001", "Carol Davis", "carol.d@student.com", "555-0203", 10, [], []⟩

/-- Sample teacher stored under `T001`. -/
def sampleTeacher : Teacher :=
  ⟨"T001", "Dr. John Smith", "john.smith@school.com", "555-0101",
    "Mathematics", [], 60000⟩

/-- A second teacher with a fresh identifier. -/
def sampleTeacher2 : Teacher :=
  ⟨"T002", "Prof. Sarah Johnson", "sarah.j@school.com", "555-0102",
    "Physics", [], 65000⟩

/-- Sample course stored under `C001`. -/
def sampleCourse : Course :=
  Course.mkCourse "C001" "Algebra I" "Introduction to Algebra" 3 25

/-- A second course with a fresh identifier. -/
def sampleCourse2 : Course :=
  Course.mkCourse "C002" "Physics 101" "Basic Physics Principles" 4 20

/-- Sample department stored under `DEPT001`. -/
def sampleDept : Department := ⟨"DEPT001", "Mathematics", none, [], []⟩

/-- A second department with a fresh identifier. -/
def sampleDept2 : Department := ⟨"DEPT002", "Science", none, [], []⟩

/-- A school already holding one entry in each registry. -/
def sampleSchool : School :=
  ⟨"Springfield High School", "123 Main St, Springfield",
   [("S001", sampleStudent)], [("T001", sampleTeacher)],
   [("C001", sampleCourse)], [("DEPT001", sampleDept)]⟩

/-- Concrete run of `school_registry_rejects_duplicates` on `sampleSchool`:
duplicate identifiers are rejected in all four registries, fresh identifiers
are stored and retrievable. -/
theorem school_registry_rejects_duplicates_witness :
    (School.add_student sampleSchool sampleStudentDup = (false, sampleSchool))
    ∧ (School.add_student sampleSchool sampleStudent2 =
        (true, { sampleSchool with
          students := sampleSchool.students ++ [("S002", sampleStudent2)] })
      ∧ dictGet (School.add_student sampleSchool sampleStudent2).2.students
          "S002" = some sampleStudent2)
    ∧ (School.add_teacher sampleSchool sampleTeacher = (false, sampleSchool))
    ∧ (School.add_teacher sampleSchool sampleTeacher2 =
        (true, { sampleSchool with
          teachers := sampleSchool.teachers ++ [("T002", sampleTeacher2)] })
      ∧ dictGet (School.add_teacher sampleSchool sampleTeacher2).2.teachers
          "T002" = some sampleTeacher2)
    ∧ (School.add_course sampleSchool sampleCourse = (false, sampleSchool))
    ∧ (School.add_course sampleSchool sampleCourse2 =
        (true, { sampleSchool with
          courses := sampleSchool.courses ++ [("C002", sampleCourse2)] })
      ∧ dictGet (School.add_course sampleSchool sampleCourse2).2.courses
          "C002" = some sampleCourse2)
    ∧ (School.add_department sampleSchool sampleDept = (false, sampleSchool))
    ∧ (School.add_department sampleSchool sampleDept2 =
        (true, { sampleSchool with
          departments :=
            sampleSchool.departments ++ [("DEPT002", sampleDept2)] })
      ∧ dictGet
          (School.add_department sampleSchool sampleDept2).2.departments
          "DEPT002" = some sampleDept2) :=
  ⟨(school_registry_rejects_duplicates sampleSchool sampleStudentDup
      sampleTeacher sampleCourse sampleDept).1.1 (by decide),
   (school_registry_rejects_duplicates sampleSchool sampleStudent2
      sampleTeacher2 sampleCourse2 sampleDept2).1.2 (by decide),
   (school_registry_rejects_duplicates sampleSchool sampleStudentDup
      sampleTeacher sampleCourse sampleDept).2.1.1 (by decide),
   (school_registry_rejects_duplicates sampleSchool sampleStudent2
      sampleTeacher2 sampleCourse2 sampleDept2).2.1.2 (by decide),
   (school_registry_rejects_duplicates sampleSchool sampleStudentDup
      sampleTeacher sampleCourse sampleDept).2.2.1.1 (by decide),
   (school_registry_rejects_duplicates sampleSchool sampleStudent2
      sampleTeacher2 sampleCourse2 sampleDept2).2.2.1.2 (by decide),
   (school_registry_rejects_duplicates sampleSchool sampleStudentDup
      sampleTeacher sampleCourse sampleDept).2.2.2.1 (by decide),
   (school_registry_rejects_duplicates sampleSchool sampleStudent2
      sampleTeacher2 sampleCourse2 sampleDept2).2.2.2.2 (by decide)⟩

/-! ### C8: exclusive links -/

/-- C8 is refuted for the patient-doctor exclusive link:
`Patient.assign_doctor` has no already-linked guard, so a second assign is
not a no-op — it overwrites the stored doctor. A patient already linked to
doctor 1 is assigned doctor 2; the state changes and the patient is now
linked to doctor 2 instead of remaining linked only to doctor 1. -/
theorem assign_doctor_overwrites_counterexample :
    ((HCPatient.assign_doctor
        ⟨"P003", "John Doe", "john@hospital.com", "555-1000", "A+", [], [],
          none, none, false, some 1, [], []⟩ 2).assigned_doctor = some 2)
    ∧ (HCPatient.assign_doctor
        ⟨"P003", "John Doe", "john@hospital.com", "555-1000", "A+", [], [],
          none, none, false, some 1, [], []⟩ 2 ≠
      ⟨"P003", "John Doe", "john@hospital.com", "555-1000", "A+", [], [],
        none, none, false, some 1, [], []⟩) := by
  decide

/-- C8 (amended): neither exclusive association behaves as claimed. For the
patient-doctor link, `Patient.assign_doctor` has no already-linked guard: it
writes only the patient's side, and a second assign overwrites the first
doctor instead of being a no-op (see
`assign_doctor_overwrites_counterexample`). For the patient-room link,
`admit_to_hospital` never establishes a link at all: its guard reads the
getter-only self-recursive `_is_admitted` property (`src/HealthCare.py`
lines 124-126) and raises `RecursionError`, leaving the patient and the
room unchanged. -/
theorem admit_raises_assign_doctor_overwrites (p : HCPatient) (r : Room) :
    (p.admit_to_hospital r =
      ((p, r), some "RecursionError: maximum recursion depth exceeded"))
    ∧ (∀ (q : HCPatient) (dId : Nat),
        (q.assign_doctor dId).assigned_doctor = some dId)
    ∧ (∀ (q : HCPatient) (d1 d2 : Nat),
        ((q.assign_doctor d1).assign_doctor d2).assigned_doctor = some d2) :=
  ⟨rfl, fun _ _ => rfl, fun _ _ _ => rfl⟩

/-- Fresh patient for the admission witness. -/
def samplePatient : HCPatient :=
  ⟨"P001", "John Doe", "john@hospital.com", "555-1000", "A+", [], [], none,
    none, false, none, [], []⟩

/-- ICU room 101 for the admission witness. -/
def roomA : Room := ⟨101, "ICU", none⟩

/-- Concrete run of `admit_raises_assign_doctor_overwrites`: admitting the
sample patient to room 101 raises and changes neither object, and two
`assign_doctor` calls leave the patient linked to the second doctor. -/
theorem admit_raises_assign_doctor_overwrites_witness :
    (samplePatient.admit_to_hospital roomA =
      ((samplePatient, roomA),
        some "RecursionError: maximum recursion depth exceeded"))
    ∧ (samplePatient.assign_doctor 4).assigned_doctor = some 4
    ∧ ((samplePatient.assign_doctor 1).assign_doctor 2).assigned_doctor =
      some 2 :=
  ⟨(admit_raises_assign_doctor_overwrites samplePatient roomA).1,
   (admit_raises_assign_doctor_overwrites samplePatient roomA).2.1
     samplePatient 4,
   (admit_raises_assign_doctor_overwrites samplePatient roomA).2.2
     samplePatient 1 2⟩

/-! ### C9: append-only historical records -/

/-- C9 is refuted for student grades: `Student.drop_course` deletes the
grade record keyed by the dropped course's id. Student 3 holds the grade
record `("C001", 92.5)`; after dropping course `C001` the record is gone —
an operation deleted an existing historical record. -/
theorem grades_not_append_only_counterexample :
    (("C001", (92 : ℚ)) ∈
      (⟨"S001", "Alice Williams", "alice.w@student.com", "555-0201", 10, [0],
        [("C001", (92 : ℚ))]⟩ : Student).grades)
    ∧ (("C001", (92 : ℚ)) ∉
      (Student.drop_course
        ⟨"S001", "Alice Williams", "alice.w@student.com", "555-0201", 10,
          [0], [("C001", (92 : ℚ))]⟩ 3
        { course_id := "C001", name := "Algebra I",
          description := "Introduction to Algebra", credits := 3,
          max_students := 25, teacher := none,
          enrolled_students := [3] } 0).2.1.grades) := by
  decide

lemma dictHasKey_erase {α : Type} (d : List (String × α)) (k : String) :
    dictHasKey (dictErase d k) k = false := by
  simp only [dictHasKey, dictErase, List.any_eq_false]
  intro p hp
  rw [List.mem_filter] at hp
  simpa using hp.2

/-- C9 (amended): a student's grades are not append-only — dropping a course
deletes the grade keyed by that course's id (see
`grades_not_append_only_counterexample`). A patient's medical-history
records are never mutated or deleted, but only because the sole writer,
`add_medical_history`, always raises `AttributeError` at its
`datetime.now()` call (line 4 of `src/HealthCare.py` imports the `datetime`
module, not the class) before its `append` runs, returning the patient
unchanged — the method never extends the list either. -/
theorem medical_history_never_mutated (p : HCPatient) (history : String)
    (st : Student) (stId : Nat) (c : Course) (cId : Nat) :
    (p.add_medical_history history =
      (p, some "AttributeError: module 'datetime' has no attribute 'now'"))
    ∧ (∀ r ∈ p.medical_history,
        r ∈ (p.add_medical_history history).1.medical_history)
    ∧ (cId ∈ st.enrolled_courses →
        dictHasKey (st.drop_course stId c cId).2.1.grades c.course_id =
          false) := by
  refine ⟨rfl, fun r hr => hr, ?_⟩
  intro h
  rw [Student.drop_course_success st stId c cId h]
  show dictHasKey (dictErase st.grades c.course_id) c.course_id = false
  exact dictHasKey_erase st.grades c.course_id

/-- Patient with an existing medical-history record for the witness. -/
def samplePatientWithHistory : HCPatient :=
  ⟨"P002", "Jane Roe", "jane@hospital.com", "555-1001", "B+",
    ["2024-01-01 09:00:00: Flu"], [], none, none, false, none, [], []⟩

/-- Concrete run of `medical_history_never_mutated`: `add_medical_history`
raises and leaves the patient (hence the existing record) unchanged, and
dropping course `C001` removes the grade keyed by `C001`. -/
theorem medical_history_never_mutated_witness :
    (samplePatientWithHistory.add_medical_history "Diagnosis: Cold" =
      (samplePatientWithHistory,
        some "AttributeError: module 'datetime' has no attribute 'now'"))
    ∧ ("2024-01-01 09:00:00: Flu" ∈
      (samplePatientWithHistory.add_medical_history
        "Diagnosis: Cold").1.medical_history)
    ∧ (dictHasKey
        (Student.drop_course
          ⟨"S004", "Dana White", "dana.w@student.com", "555-0204", 12, [0],
            [("C001", 88)]⟩ 3
          { course_id := "C001", name := "Algebra I",
            description := "Introduction to Algebra", credits := 3,
            max_students := 25, teacher := none,
            enrolled_students := [3] } 0).2.1.grades "C001" = false) :=
  ⟨(medical_history_never_mutated samplePatientWithHistory "Diagnosis: Cold"
      ⟨"S004", "Dana White", "dana.w@student.com", "555-0204", 12, [0],
        [("C001", 88)]⟩ 3
      { course_id := "C001", name := "Algebra I",
        description := "Introduction to Algebra", credits := 3,
        max_students := 25, teacher := none,
        enrolled_students := [3] } 0).1,
   (medical_history_never_mutated samplePatientWithHistory "Diagnosis: Cold"
      ⟨"S004", "Dana White", "dana.w@student.com", "555-0204", 12, [0],
        [("C001", 88)]⟩ 3
      { course_id := "C001", name := "Algebra I",
        description := "Introduction to Algebra", credits := 3,
        max_students := 25, teacher := none,
        enrolled_students := [3] } 0).2.1 "2024-01-01 09:00:00: Flu"
     (by decide),
   (medical_history_never_mutated samplePatientWithHistory "Diagnosis: Cold"
      ⟨"S004", "Dana White", "dana.w@student.com", "555-0204", 12, [0],
        [("C001", 88)]⟩ 3
      { course_id := "C001", name := "Algebra I",
        description := "Introduction to Algebra", credits := 3,
        max_students := 25, teacher := none,
        enrolled_students := [3] } 0).2.2 (by decide)⟩

/-! ### C10: malformed input is rejected at the point of assignment -/

/-- C10: malformed input is rejected by raising at the point of assignment
and the stored value is unchanged: an empty/whitespace name, an email
without `@`, a grade outside `[0, 100]` and a negative salary (school
`Teacher` and hospital `Doctor` alike) are all rejected, and in each case
the returned object is exactly the input object. In `HealthCare.py` the same
malformed inputs also raise — through the misnamed line-68 setter, which
leaves `name` running the email check and `email` with no setter at all —
again leaving the fields unchanged. -/
theorem malformed_input_rejected (st : Student) (t : Teacher) (d : HCDoctor)
    (p : HCPatient) (v : String) (g sal : ℚ) (cid : String) :
    (v.data.all Char.isWhitespace = true →
        st.set_name v = (st, some "Name cannot be empty"))
    ∧ (v.data.contains '@' = false →
        st.set_email v = (st, some "Invalid email format"))
    ∧ (¬(0 ≤ g ∧ g ≤ 100) →
        st.add_grade cid g = (st, some "Grade must be between 0 and 100"))
    ∧ (sal < 0 → t.set_salary sal = (t, some "Salary cannot be negative"))
    ∧ (sal < 0 → d.set_salary sal = (d, some "Salary cannot be negative"))
    ∧ (v.data.all Char.isWhitespace = true →
        (p.set_name v).2.isSome = true ∧ (p.set_name v).1 = p)
    ∧ ((p.set_email v).2.isSome = true ∧ (p.set_email v).1 = p) := by
  refine ⟨fun h => ?_, fun h => ?_, fun h => ?_, fun h => ?_, fun h => ?_,
    fun h => ?_, ⟨rfl, rfl⟩⟩
  · simp [Student.set_name, h]
  · have h' : '@' ∉ v.data := by simpa using h
    simp [Student.set_email, h']
  · simp [Student.add_grade, h]
  · simp [Teacher.set_salary, h]
  · simp [HCDoctor.set_salary, h]
  · have hc : '@' ∉ v.data := by
      intro hmem
      have hw := List.all_eq_true.mp h _ hmem
      exact absurd hw (by decide)
    constructor <;> simp [HCPatient.set_name, hc]

/-- Sample doctor for the malformed-input witness. -/
def sampleDoctor : HCDoctor :=
  ⟨"D001", "Dr. Gregory House", "house@hospital.com", "555-2000",
    "Diagnostics", "LIC-1234", [], 0⟩

/-- Concrete run of `malformed_input_rejected`: a whitespace name, a
no-`@` email, grade 150 and salary -1 are all rejected with the object
unchanged, in both files. -/
theorem malformed_input_rejected_witness :
    (Student.set_name sampleStudent "   " =
      (sampleStudent, some "Name cannot be empty"))
    ∧ (Student.set_email sampleStudent "   " =
      (sampleStudent, some "Invalid email format"))
    ∧ (Student.add_grade sampleStudent "C001" 150 =
      (sampleStudent, some "Grade must be between 0 and 100"))
    ∧ (Teacher.set_salary sampleTeacher (-1) =
      (sampleTeacher, some "Salary cannot be negative"))
    ∧ (HCDoctor.set_salary sampleDoctor (-1) =
      (sampleDoctor, some "Salary cannot be negative"))
    ∧ ((HCPatient.set_name samplePatient "   ").2.isSome = true
      ∧ (HCPatient.set_name samplePatient "   ").1 = samplePatient)
    ∧ ((HCPatient.set_email samplePatient "   ").2.isSome = true
      ∧ (HCPatient.set_email samplePatient "   ").1 = samplePatient) :=
  ⟨(malformed_input_rejected sampleStudent sampleTeacher sampleDoctor
      samplePatient "   " 150 (-1) "C001").1 (by decide),
   (malformed_input_rejected sampleStudent sampleTeacher sampleDoctor
      samplePatient "   " 150 (-1) "C001").2.1 (by decide),
   (malformed_input_rejected sampleStudent sampleTeacher sampleDoctor
      samplePatient "   " 150 (-1) "C001").2.2.1 (by decide),
   (malformed_input_rejected sampleStudent sampleTeacher sampleDoctor
      samplePatient "   " 150 (-1) "C001").2.2.2.1 (by norm_num),
   (malformed_input_rejected sampleStudent sampleTeacher sampleDoctor
      samplePatient "   " 150 (-1) "C001").2.2.2.2.1 (by norm_num),
   (malformed_input_rejected sampleStudent sampleTeacher sampleDoctor
      samplePatient "   " 150 (-1) "C001").2.2.2.2.2.1 (by decide),
   (malformed_input_rejected sampleStudent sampleTeacher sampleDoctor
      samplePatient "   " 150 (-1) "C001").2.2.2.2.2.2⟩
